import Mathlib

/-!
Verification of the task-assignment engine (`src/server/task_assignment.py`,
`src/server/config.py`, `src/server/models.py`).

The engine holds technicians, tasks and a distance matrix, builds a
min-cost-flow network on every mutation (`Graph._create_graph`), solves it
with `SimpleMinCostFlow` and decodes the flow into a technician → ticket
assignment (`Graph.solve_graph`).  The solver library is modelled exactly by
its contract: it returns an optimal feasible flow when one exists and a
non-OPTIMAL status (hence a raised `ValueError` in `solve_graph`) otherwise;
in particular supplies that do not balance admit no feasible flow, matching
the library's UNBALANCED status.
-/

namespace TaskAssignment

/-- `models.JiraTicket` restricted to the fields the assignment engine reads or
returns (`key`, `priority`); the remaining optional metadata fields are never
consulted by the code under verification. -/
structure JiraTicket where
  key : Option String := none
  priority : Option String := none
deriving DecidableEq, Repr, Inhabited

/-- One arc as registered by `add_arc_with_capacity_and_unit_cost`:
tail node, head node, capacity, unit cost. -/
structure Arc where
  tail : Nat
  head : Nat
  capacity : Nat
  unitCost : Int
deriving DecidableEq, Repr, Inhabited

/-- The data handed to the solver: the arcs in insertion order plus the node
supplies (`set_node_supply i supplies[i]` for every `i`). -/
structure FlowNetwork where
  arcs : List Arc
  supplies : List Int
deriving DecidableEq, Repr, Inhabited

/-- Net outflow of node `v` under the per-arc `flow` (parallel to `arcs`):
flow leaving on arcs with tail `v` minus flow arriving on arcs with head `v`. -/
def netOutflow (arcs : List Arc) (flow : List Nat) (v : Nat) : Int :=
  (List.zip arcs flow).foldl
    (fun acc af =>
      acc + (if af.1.tail = v then (af.2 : Int) else 0)
          - (if af.1.head = v then (af.2 : Int) else 0)) 0

/-- A flow is feasible when it has one value per arc, respects every arc
capacity, and gives every node a net outflow equal to its supply. -/
def isFeasible (net : FlowNetwork) (flow : List Nat) : Bool :=
  (flow.length == net.arcs.length)
    && (List.zip net.arcs flow).all (fun af => af.2 ≤ af.1.capacity)
    && (List.range net.supplies.length).all
        (fun v => netOutflow net.arcs flow v == net.supplies.getD v 0)

/-- All capacity-respecting flow vectors over the given arcs. -/
def allFlows : List Arc → List (List Nat)
  | [] => [[]]
  | a :: rest => (List.range (a.capacity + 1)).flatMap
      (fun x => (allFlows rest).map (fun f => x :: f))

/-- Total cost of a flow: sum over arcs of `unit cost * flow`. -/
def totalCost (net : FlowNetwork) (flow : List Nat) : Int :=
  (List.zip net.arcs flow).foldl (fun acc af => acc + af.1.unitCost * (af.2 : Int)) 0

/-- Model of `SimpleMinCostFlow.solve` followed by the `status != OPTIMAL`
check: an optimal feasible flow when one exists, `none` otherwise (the
library's INFEASIBLE and UNBALANCED statuses both fall in the `none` case,
since unbalanced supplies admit no feasible flow). -/
def mcfSolve (net : FlowNetwork) : Option (List Nat) :=
  ((allFlows net.arcs).filter (fun f => isFeasible net f)).argmin (totalCost net)

/-- `np.min` over the flattened cost matrix; the empty case never arises under
the builder's callers (it would raise in `numpy`). -/
def npMin : List Int → Int
  | [] => 0
  | x :: xs => xs.foldl min x

/-- The unshifted cost row for one technician:
`distances[i] - priority_weight * task_priorities` elementwise. -/
def rowCosts (priorityWeight : Int) (taskPriorities : List Int) (row : List Int) : List Int :=
  List.zipWith (fun d p => d - priorityWeight * p) row taskPriorities

/-- `costs = distances - priority_weight * task_priorities` from
`Graph._create_graph` (integer arithmetic: every call site passes integers). -/
def costsOf (priorityWeight : Int) (taskPriorities : List Int)
    (distances : List (List Int)) : List (List Int) :=
  distances.map (rowCosts priorityWeight taskPriorities)

/-- `Graph._create_graph`: builds the arcs (source→technician, then
technician→task in technician-major order, then task→sink) and the supplies,
and returns the network together with the cost offset. -/
def create_graph (technitions : List String) (tasks : List JiraTicket)
    (distances : List (List Int)) (task_priorities : List Int)
    (priority_weight : Int) : FlowNetwork × Int :=
  let costs := costsOf priority_weight task_priorities distances
  let min_cost := npMin costs.flatten
  let cost_offset : Int := if 0 ≤ min_cost then 0 else -min_cost
  let non_negative_costs := costs.map (fun r => r.map (fun c => c + cost_offset))
  let num_techs := technitions.length
  let num_tasks := tasks.length
  let SINK_NODE := num_techs + num_tasks + 1
  let source_to_tech := (List.range num_techs).map
    (fun i => Arc.mk 0 (1 + i) 1 0)
  let tech_to_task := (List.range num_techs).flatMap
    (fun i => (List.range num_tasks).map
      (fun j => Arc.mk (1 + i) (num_techs + 1 + j) 1
        ((non_negative_costs.getD i []).getD j 0)))
  let task_to_sink := (List.range num_tasks).map
    (fun j => Arc.mk (num_techs + 1 + j) SINK_NODE 1 0)
  let supplies :=
    (((List.replicate (SINK_NODE + 1) (0 : Int)).set 0 (num_techs : Int)).set
      SINK_NODE (-(min num_tasks num_techs : Int)))
  (FlowNetwork.mk (source_to_tech ++ tech_to_task ++ task_to_sink) supplies,
   cost_offset)

/-- The `Graph` object: deep-copied inputs plus the built solver and offset. -/
structure Graph where
  technicians : List String
  tasks : List JiraTicket
  distances : List (List Int)
  task_priorities : List Int
  priority_weight : Int
  smcf : FlowNetwork
  cost_offset : Int
deriving DecidableEq, Repr

/-- `Graph.__init__`: snapshot the inputs (`copy.deepcopy`) and build the
network via `_create_graph`. -/
def Graph.make (technicians : List String) (tasks : List JiraTicket)
    (distances : List (List Int)) (task_priorities : List Int)
    (priority_weight : Int) : Graph :=
  let built := create_graph technicians tasks distances task_priorities priority_weight
  Graph.mk technicians tasks distances task_priorities priority_weight built.1 built.2

/-- Python `dict` assignment `d[k] = v`: overwrite in place when the key
exists, else append (insertion order preserved). -/
def dictInsert (d : List (String × JiraTicket)) (k : String) (v : JiraTicket) :
    List (String × JiraTicket) :=
  if d.any (fun p => p.1 == k) then
    d.map (fun p => if p.1 == k then (k, v) else p)
  else d ++ [(k, v)]

/-- `Graph.solve_graph`: run the solver, raise `ValueError` (modelled as
`Except.error`) unless the status is OPTIMAL, then decode every
technician→task arc (indices `num_techs ..< num_techs + num_techs*num_tasks`)
that carries positive flow via `tail - 1` and `head - (num_techs + 1)`. -/
def Graph.solve_graph (g : Graph) : Except String (List (String × JiraTicket)) :=
  match mcfSolve g.smcf with
  | none => Except.error "The solver did not find an optimal solution."
  | some flow =>
    let num_techs := g.technicians.length
    let num_tasks := g.tasks.length
    Except.ok <|
      (List.range' num_techs (num_techs * num_tasks)).foldl
        (fun assignments arc_index =>
          if 0 < flow.getD arc_index 0 then
            let tech_idx := (g.smcf.arcs.getD arc_index default).tail - 1
            let task_idx := (g.smcf.arcs.getD arc_index default).head - (num_techs + 1)
            dictInsert assignments (g.technicians.getD tech_idx "")
              (g.tasks.getD task_idx default)
          else assignments)
        []

/-- `config.TASK_PRIORITY_WEIGHT`. -/
def TASK_PRIORITY_WEIGHT : Int := 2

/-- `TaskAssigner._CONSTANT_PRIORITIES`: `np.array([1] * num_tasks)`. -/
def CONSTANT_PRIORITIES (num_tasks : Nat) : List Int :=
  List.replicate num_tasks 1

/-- The mutable state of a `TaskAssigner` (the lock serialises every public
operation, so each operation is modelled as one atomic state transition). -/
structure TaskAssignerState where
  priority_weight : Int
  graph : Option Graph
  technicians : List String
  distances : List (List Int)
  tasks : List JiraTicket
  assignments : List (String × JiraTicket)
deriving DecidableEq, Repr

/-- `TaskAssigner.__init__` with the default (empty) arguments. -/
def initTaskAssigner : TaskAssignerState :=
  TaskAssignerState.mk TASK_PRIORITY_WEIGHT none [] [] [] []

/-- Guard modelling `np.array(self.distances)` and the broadcasting in
`_create_graph`: the matrix must have one row per technician and one column
per task.  Degenerate `numpy` broadcasts (a ragged matrix, a wrong row count
or a wrong row width) are collapsed into the failure branch; no verified
claim exercises the degenerate broadcast shapes `numpy` would still accept. -/
def npShapeOk (distances : List (List Int)) (num_techs num_tasks : Nat) : Bool :=
  (distances.length == num_techs)
    && distances.all (fun r => r.length == num_tasks)

/-- `TaskAssigner._rebuild_graph_unsafe`: when technicians, tasks and
distances are all non-empty, build a fresh `Graph` with the module constant
weight and all-1 priorities; otherwise leave the state (and in particular any
previously built graph) untouched.  A malformed matrix raises out of the
`numpy` conversion, modelled as `Except.error`. -/
def rebuild_graph_unsafe (st : TaskAssignerState) : Except String TaskAssignerState :=
  if !st.technicians.isEmpty && !st.tasks.isEmpty && !st.distances.isEmpty then
    if npShapeOk st.distances st.technicians.length st.tasks.length then
      Except.ok { st with
        graph := some (Graph.make st.technicians st.tasks st.distances
          (CONSTANT_PRIORITIES st.tasks.length) TASK_PRIORITY_WEIGHT) }
    else
      Except.error "ValueError: inhomogeneous distance matrix"
  else
    Except.ok st

/-- Field updates happen before the rebuild, so when the rebuild raises, the
already-mutated fields are kept and the exception propagates to the caller. -/
def withRebuild (st : TaskAssignerState) : TaskAssignerState × Except String Unit :=
  match rebuild_graph_unsafe st with
  | Except.ok st2 => (st2, Except.ok ())
  | Except.error e => (st, Except.error e)

/-- `TaskAssigner.update_floor`: overwrite technicians and distances, rebuild. -/
def update_floor (st : TaskAssignerState) (technicians : List String)
    (distances : List (List Int)) : TaskAssignerState × Except String Unit :=
  withRebuild { st with technicians := technicians, distances := distances }

/-- `TaskAssigner.add_technician`: append the technician and its distance row
(no dimension check), then rebuild. -/
def add_technician (st : TaskAssignerState) (technician : String)
    (distances : List Int) : TaskAssignerState × Except String Unit :=
  withRebuild { st with
    technicians := st.technicians ++ [technician],
    distances := st.distances ++ [distances] }

/-- `TaskAssigner.set_distances`. -/
def set_distances (st : TaskAssignerState) (distances : List (List Int)) :
    TaskAssignerState × Except String Unit :=
  withRebuild { st with distances := distances }

/-- `TaskAssigner.refresh_technicians`. -/
def refresh_technicians (st : TaskAssignerState) (technicians : List String) :
    TaskAssignerState × Except String Unit :=
  withRebuild { st with technicians := technicians }

/-- `TaskAssigner.refresh_tasks` (`copy.deepcopy` is the identity on the pure
values of this model; aliasing is treated separately in the heap model below). -/
def refresh_tasks (st : TaskAssignerState) (tasks : List JiraTicket) :
    TaskAssignerState × Except String Unit :=
  withRebuild { st with tasks := tasks }

/-- `TaskAssigner.assign_tasks`: solve the current graph when one exists and
cache the result; with no graph, return the cached assignments unchanged.
`solve_graph`'s `ValueError` is not caught and propagates to the caller. -/
def assign_tasks (st : TaskAssignerState) :
    TaskAssignerState × Except String (List (String × JiraTicket)) :=
  match st.graph with
  | none => (st, Except.ok st.assignments)
  | some g =>
    match g.solve_graph with
    | Except.ok a => ({ st with assignments := a }, Except.ok a)
    | Except.error e => (st, Except.error e)

instance {ε α : Type} [DecidableEq ε] [DecidableEq α] : DecidableEq (Except ε α) := fun x y =>
  match x, y with
  | Except.error a, Except.error b =>
    if h : a = b then Decidable.isTrue (by rw [h]) else Decidable.isFalse (by simp [h])
  | Except.error _, Except.ok _ => Decidable.isFalse (by simp)
  | Except.ok _, Except.error _ => Decidable.isFalse (by simp)
  | Except.ok a, Except.ok b =>
    if h : a = b then Decidable.isTrue (by rw [h]) else Decidable.isFalse (by simp [h])

/-!
## Aliasing model

The pure model above treats every ingested list as a value.  Python passes
the technician/task/distance lists by reference, and of the mutating
operations only `refresh_tasks` calls `copy.deepcopy` on its argument
(`Graph.__init__` separately deep-copies whatever it is built from).  To
settle the ownership claim, the same engine is modelled once more with the
caller-mutable objects (distance rows and tickets) placed on an explicit
heap; a field of the engine holding `List Nat` holds Python references. -/

/-- The mutable objects shared between callers and the engine: distance-row
list objects and ticket objects, addressed by index. -/
structure PyHeap where
  rows : List (List Int)
  tickets : List JiraTicket
deriving DecidableEq, Repr

/-- Read a distance-row object. -/
def PyHeap.getRow (h : PyHeap) (r : Nat) : List Int := h.rows.getD r []

/-- In-place mutation of a distance-row object (the caller writing through
its own reference, e.g. `row[0] = v` / `row[:] = v`). -/
def PyHeap.setRow (h : PyHeap) (r : Nat) (v : List Int) : PyHeap :=
  { h with rows := h.rows.set r v }

/-- Read a ticket object. -/
def PyHeap.getTicket (h : PyHeap) (r : Nat) : JiraTicket := h.tickets.getD r default

/-- In-place mutation of a ticket object. -/
def PyHeap.setTicket (h : PyHeap) (r : Nat) (t : JiraTicket) : PyHeap :=
  { h with tickets := h.tickets.set r t }

/-- Dereference a list of row references (what `np.array(self.distances)`
reads at rebuild time). -/
def derefRows (h : PyHeap) (refs : List Nat) : List (List Int) :=
  refs.map (fun r => h.getRow r)

/-- Dereference a list of ticket references (what `copy.deepcopy(tasks)`
reads at call time). -/
def derefTickets (h : PyHeap) (refs : List Nat) : List JiraTicket :=
  refs.map (fun r => h.getTicket r)

/-- Engine state in the aliasing model.  `self.distances` keeps the caller's
row objects by reference (`update_floor`, `add_technician`, `set_distances`
perform plain assignment/append); `self.tasks` holds values because
`refresh_tasks` deep-copies its argument before storing it. -/
structure TaskAssignerHState where
  technicians : List String
  distanceRefs : List Nat
  tasks : List JiraTicket
  graph : Option Graph
  assignments : List (String × JiraTicket)
deriving DecidableEq, Repr

/-- Fresh engine in the aliasing model. -/
def initH : TaskAssignerHState := TaskAssignerHState.mk [] [] [] none []

/-- `_rebuild_graph_unsafe` in the aliasing model: the distance matrix is
read through the stored references at rebuild time; `Graph.__init__` then
deep-copies, so the built graph itself holds values. -/
def rebuild_graph_unsafeH (h : PyHeap) (st : TaskAssignerHState) :
    Except String TaskAssignerHState :=
  let distances := derefRows h st.distanceRefs
  if !st.technicians.isEmpty && !st.tasks.isEmpty && !st.distanceRefs.isEmpty then
    if npShapeOk distances st.technicians.length st.tasks.length then
      Except.ok { st with
        graph := some (Graph.make st.technicians st.tasks distances
          (CONSTANT_PRIORITIES st.tasks.length) TASK_PRIORITY_WEIGHT) }
    else
      Except.error "ValueError: inhomogeneous distance matrix"
  else
    Except.ok st

/-- Run the rebuild after the field mutations, as in the pure model. -/
def withRebuildH (h : PyHeap) (st : TaskAssignerHState) :
    TaskAssignerHState × Except String Unit :=
  match rebuild_graph_unsafeH h st with
  | Except.ok st2 => (st2, Except.ok ())
  | Except.error e => (st, Except.error e)

/-- `update_floor`: stores the caller's row objects by reference. -/
def update_floorH (h : PyHeap) (st : TaskAssignerHState) (technicians : List String)
    (distanceRefs : List Nat) : TaskAssignerHState × Except String Unit :=
  withRebuildH h { st with technicians := technicians, distanceRefs := distanceRefs }

/-- `add_technician`: appends the caller's row object by reference. -/
def add_technicianH (h : PyHeap) (st : TaskAssignerHState) (technician : String)
    (rowRef : Nat) : TaskAssignerHState × Except String Unit :=
  withRebuildH h { st with
    technicians := st.technicians ++ [technician],
    distanceRefs := st.distanceRefs ++ [rowRef] }

/-- `set_distances`: stores the caller's row objects by reference. -/
def set_distancesH (h : PyHeap) (st : TaskAssignerHState) (distanceRefs : List Nat) :
    TaskAssignerHState × Except String Unit :=
  withRebuildH h { st with distanceRefs := distanceRefs }

/-- `refresh_technicians` (technician ids are immutable strings). -/
def refresh_techniciansH (h : PyHeap) (st : TaskAssignerHState)
    (technicians : List String) : TaskAssignerHState × Except String Unit :=
  withRebuildH h { st with technicians := technicians }

/-- `refresh_tasks`: `copy.deepcopy` snapshots the ticket objects into
engine-owned values at call time. -/
def refresh_tasksH (h : PyHeap) (st : TaskAssignerHState) (taskRefs : List Nat) :
    TaskAssignerHState × Except String Unit :=
  withRebuildH h { st with tasks := derefTickets h taskRefs }

/-- `assign_tasks` in the aliasing model (reads no caller-owned object). -/
def assign_tasksH (st : TaskAssignerHState) :
    TaskAssignerHState × Except String (List (String × JiraTicket)) :=
  match st.graph with
  | none => (st, Except.ok st.assignments)
  | some g =>
    match g.solve_graph with
    | Except.ok a => ({ st with assignments := a }, Except.ok a)
    | Except.error e => (st, Except.error e)

/-!
## Concrete instances used by the claims
-/

/-- Ticket "A" of the spec scenarios. -/
def ticketA : JiraTicket := { key := some "A" }

/-- Ticket "B" of the spec scenarios. -/
def ticketB : JiraTicket := { key := some "B" }

/-- The §8 scenario-2 graph: technicians `["T1","T2"]`, tasks `A`,`B`,
distances `[[10,5],[7,15]]`, priority weight 0. -/
def exGraphC1 : Graph :=
  Graph.make ["T1", "T2"] [ticketA, ticketB] [[10, 5], [7, 15]] [1, 1] 0

/-- The optimal flow of `exGraphC1`: both source arcs, T1→B, T2→A, both sink
arcs (total cost 12). -/
def exFlowC1 : List Nat := [1, 1, 0, 1, 1, 0, 1, 1]

/-- The competing perfect matching T1→A, T2→B (total cost 25), used to
witness the optimality statement. -/
def exAltFlowC1 : List Nat := [1, 1, 1, 0, 0, 1, 1, 1]

/-- A built network with 2 technicians and 1 task (weight 2). -/
def exNetC2 : FlowNetwork := (create_graph ["T1", "T2"] [ticketA] [[4], [6]] [1] 2).1

/-- Engine state with 3 technicians and 2 tasks, reached through the public
operations. -/
def stC3 : TaskAssignerState :=
  (refresh_tasks
    (update_floor initTaskAssigner ["T1", "T2", "T3"] [[1, 2], [3, 4], [5, 6]]).1
    [ticketA, ticketB]).1

/-- Engine state with 2 technicians and 1 task: the built network admits no
feasible flow (supplies sum to 1). -/
def stC4 : TaskAssignerState :=
  (refresh_tasks (update_floor initTaskAssigner ["T1", "T2"] [[4], [6]]).1 [ticketA]).1

/-- Engine state with one technician and two tasks, about to receive an
`add_technician` call with a row of length 3. -/
def stC5 : TaskAssignerState :=
  (refresh_tasks (update_floor initTaskAssigner ["T1"] [[1, 2]]).1 [ticketA, ticketB]).1

/-- One technician, no tasks yet: no graph is built. -/
def stC8a : TaskAssignerState := (update_floor initTaskAssigner ["T1"] [[5]]).1

/-- Tasks arrive: the graph is built. -/
def stC8b : TaskAssignerState := (refresh_tasks stC8a [ticketA]).1

/-- Tasks are emptied again: the guard in `_rebuild_graph_unsafe` skips the
rebuild and the stale graph survives. -/
def stC8c : TaskAssignerState := (refresh_tasks stC8b []).1

/-- Caller-owned heap for the aliasing scenario: one distance-row object
`[5, 6]` and the two ticket objects. -/
def heapC9 : PyHeap := PyHeap.mk [[5, 6]] [ticketA, ticketB]

/-- The caller mutates its row object in place after `update_floor` returned. -/
def heapC9m : PyHeap := heapC9.setRow 0 [50, 6]

/-- Tasks ingested (deep-copied). -/
def stC9a : TaskAssignerHState := (refresh_tasksH heapC9 initH [0, 1]).1

/-- `update_floor` with one technician whose distance row is the caller's
object `0`. -/
def stC9b : TaskAssignerHState := (update_floorH heapC9 stC9a ["T1"] [0]).1

/-- A later rebuild after the caller mutated its row object. -/
def stC9mut : TaskAssignerHState := (refresh_techniciansH heapC9m stC9b ["T1"]).1

/-- The same later rebuild had the caller not mutated anything. -/
def stC9same : TaskAssignerHState := (refresh_techniciansH heapC9 stC9b ["T1"]).1

/-- A ticket priority rewrite: same ticket, new `priority` field. -/
def rePriority (f : JiraTicket → Option String) (t : JiraTicket) : JiraTicket :=
  { t with priority := f t }

/-- Observation used for the priority-inertness claim: the rebuild status
together with the solved technician → ticket-key pairing (the pairing is the
assignment; the returned ticket objects necessarily carry whatever metadata
the tasks have). -/
def rebuildAssignObs (st : TaskAssignerState) :
    Except String Unit × Except String (List (String × Option String)) :=
  let r := withRebuild st
  (r.2, ((assign_tasks r.1).2).map (fun l => l.map (fun p => (p.1, p.2.key))))

/-!
## Helper lemmas
-/

theorem foldl_min_le_init (xs : List Int) (b : Int) : xs.foldl min b ≤ b := by
  induction xs generalizing b with
  | nil => simp
  | cons x rest ih =>
    calc rest.foldl min (min b x) ≤ min b x := ih (min b x)
    _ ≤ b := min_le_left b x

theorem foldl_min_le_mem {xs : List Int} {a : Int} (h : a ∈ xs) (b : Int) :
    xs.foldl min b ≤ a := by
  induction xs generalizing b with
  | nil => cases h
  | cons x rest ih =>
    rcases List.mem_cons.mp h with rfl | hmem
    · calc rest.foldl min (min b a) ≤ min b a := foldl_min_le_init rest (min b a)
      _ ≤ a := min_le_right b a
    · exact ih hmem (min b x)

/-- `np.min` bounds every entry from below. -/
theorem npMin_le {l : List Int} {a : Int} (h : a ∈ l) : npMin l ≤ a := by
  cases l with
  | nil => cases h
  | cons x rest =>
    rcases List.mem_cons.mp h with rfl | hmem
    · exact foldl_min_le_init rest a
    · exact foldl_min_le_mem hmem x

/-- Completeness of the flow enumeration: every capacity-respecting vector of
the right length is enumerated. -/
theorem mem_allFlows {arcs : List Arc} {f : List Nat}
    (hlen : f.length = arcs.length)
    (hcap : ∀ p ∈ List.zip arcs f, p.2 ≤ p.1.capacity) :
    f ∈ allFlows arcs := by
  induction arcs generalizing f with
  | nil =>
    cases f with
    | nil => simp [allFlows]
    | cons x xs => simp at hlen
  | cons a rest ih =>
    cases f with
    | nil => simp at hlen
    | cons x xs =>
      have hx : x ≤ a.capacity := hcap (a, x) (by simp [List.zip_cons_cons])
      have hxs : xs ∈ allFlows rest := by
        refine ih (by simpa using hlen) ?_
        intro p hp
        exact hcap p (by simp [List.zip_cons_cons, hp])
      simp only [allFlows, List.mem_flatMap, List.mem_map, List.mem_range]
      exact ⟨x, by omega, xs, hxs, rfl⟩

/-- Unpacking a successful solve: the returned flow is a feasible member of
the enumeration. -/
theorem mcfSolve_feasible {net : FlowNetwork} {f : List Nat}
    (h : mcfSolve net = some f) : isFeasible net f = true := by
  have hmem : f ∈ (allFlows net.arcs).filter (fun f2 => isFeasible net f2) :=
    List.argmin_mem (Option.mem_def.mpr h)
  exact (List.mem_filter.mp hmem).2

/-!
## Claim theorems
-/

/-- C1: on technicians `["T1","T2"]`, tasks `A`,`B`, distances
`[[10,5],[7,15]]` and priority weight 0, the solve produces the assignment
T1 ↦ B, T2 ↦ A at total cost 12; and in general, whenever the solver
succeeds its flow is feasible and of minimum total cost among all feasible
flows (ties may break arbitrarily, the optimal cost value is fixed). -/
theorem C1_solver_exact_optimality :
    (exGraphC1.solve_graph = Except.ok [("T1", ticketB), ("T2", ticketA)]
      ∧ mcfSolve exGraphC1.smcf = some exFlowC1
      ∧ totalCost exGraphC1.smcf exFlowC1 = 12)
    ∧ (∀ (net : FlowNetwork) (f : List Nat), mcfSolve net = some f →
        isFeasible net f = true
        ∧ ∀ f2 : List Nat, isFeasible net f2 = true →
            totalCost net f ≤ totalCost net f2) := by
  constructor
  · exact ⟨by decide, by decide, by decide⟩
  · intro net f h
    refine ⟨mcfSolve_feasible h, ?_⟩
    intro f2 hf2
    have hparts : f2.length = net.arcs.length
        ∧ ∀ p ∈ List.zip net.arcs f2, p.2 ≤ p.1.capacity := by
      have h2 := hf2
      simp only [isFeasible, Bool.and_eq_true, beq_iff_eq, List.all_eq_true,
        decide_eq_true_eq] at h2
      exact ⟨h2.1.1, h2.1.2⟩
    have hmem2 : f2 ∈ (allFlows net.arcs).filter (fun f3 => isFeasible net f3) :=
      List.mem_filter.mpr ⟨mem_allFlows hparts.1 hparts.2, hf2⟩
    exact List.le_of_mem_argmin hmem2 (Option.mem_def.mpr h)

/-- C1 witness: the optimality statement applied to the scenario-2 network,
with the competing matching T1→A, T2→B as the feasible comparison flow. -/
theorem C1_solver_exact_optimality_witness :
    mcfSolve exGraphC1.smcf = some exFlowC1
    ∧ isFeasible exGraphC1.smcf exAltFlowC1 = true
    ∧ isFeasible exGraphC1.smcf exFlowC1 = true
    ∧ totalCost exGraphC1.smcf exFlowC1 ≤ totalCost exGraphC1.smcf exAltFlowC1 := by
  have h := C1_solver_exact_optimality.2 exGraphC1.smcf exFlowC1 (by decide)
  exact ⟨by decide, by decide, h.1, h.2 exAltFlowC1 (by decide)⟩

set_option maxRecDepth 400000 in
/-- C3: with 3 technicians and 2 tasks the supplies are source 3 and sink
−min(2,3) = −2, which no flow can satisfy (they sum to 1), so
`smcf.solve()` is not OPTIMAL and `solve_graph` raises `ValueError` out of
`assign_tasks` — the claimed "exactly 2 technicians receive an assignment"
never happens. -/
theorem C3_three_techs_two_tasks_raises :
    stC3.technicians.length = 3 ∧ stC3.tasks.length = 2
    ∧ stC3.graph.isSome = true
    ∧ (assign_tasks stC3).2
        = Except.error "The solver did not find an optimal solution." := by
  decide

/-- C4: an engine state whose built network has no feasible optimal flow
(2 technicians, 1 task: supplies sum to 1).  `assign_tasks` has no handler
around `solve_graph`, so the `ValueError` propagates past the Engine
boundary instead of reporting "no assignment". -/
theorem C4_infeasible_raises_past_engine :
    stC4.graph.isSome = true
    ∧ (assign_tasks stC4).2
        = Except.error "The solver did not find an optimal solution."
    ∧ (assign_tasks stC4).1.assignments = [] := by
  decide

/-- C5: `add_technician` performs no dimension check: called with a row of
length 3 while the task count is 2, it appends the technician and the row
first; the rebuild then raises (ragged `np.array`), leaving the roster grown
from 1 to 2 and the matrix misaligned — the state is mutated by the failed
call. -/
theorem C5_add_technician_mutates_despite_failure :
    stC5.technicians.length = 1 ∧ stC5.tasks.length = 2
    ∧ (add_technician stC5 "T2" [3, 4, 5]).2
        = Except.error "ValueError: inhomogeneous distance matrix"
    ∧ (add_technician stC5 "T2" [3, 4, 5]).1.technicians = ["T1", "T2"]
    ∧ (add_technician stC5 "T2" [3, 4, 5]).1.distances = [[1, 2], [3, 4, 5]] := by
  decide

/-- C8 counterexample: after `refresh_tasks([])` empties the task list, the
previously built graph survives (`_rebuild_graph_unsafe` only ever assigns
`self.graph`, never clears it), and `assign_tasks` re-solves the stale graph:
with an empty task list and no assignment ever stored, it returns
`{T1: A}` instead of the previous (empty) assignment. -/
theorem C8_counterexample_stale_graph :
    stC8c.tasks = [] ∧ stC8c.assignments = []
    ∧ (assign_tasks stC8c).2 = Except.ok [("T1", ticketA)] := by
  decide

/-- C8 amended: `assign_tasks` returns the previous assignment unchanged
exactly when no graph object exists (`self.graph is None`), which holds on a
fresh engine until the first rebuild with technicians, tasks and distances
all non-empty — in particular with 2 technicians and 0 tasks on a fresh
engine it returns an empty mapping without error.  Emptying the task list
later does not clear an existing graph. -/
theorem C8_amended_no_graph_returns_previous :
    (∀ st : TaskAssignerState, st.graph = none →
        assign_tasks st = (st, Except.ok st.assignments))
    ∧ (assign_tasks (update_floor initTaskAssigner ["T1", "T2"] [[], []]).1).2
        = Except.ok [] := by
  constructor
  · intro st h
    simp [assign_tasks, h]
  · decide

/-- C8 witness: the amended statement applied to the fresh engine, whose
graph field is `none`. -/
theorem C8_amended_witness :
    assign_tasks initTaskAssigner = (initTaskAssigner, Except.ok []) :=
  C8_amended_no_graph_returns_previous.1 initTaskAssigner rfl

/-- C9 counterexample: identical call sequences over the aliasing model,
differing only in that the caller mutates its own row object (`[5,6]` to
`[50,6]`) after `update_floor` returned, produce different assignments at
the next rebuild — the engine read the caller's object through the stored
reference, so ingestion did not deep-copy. -/
theorem C9_counterexample_row_aliasing :
    (assign_tasksH stC9same).2 = Except.ok [("T1", ticketA)]
    ∧ (assign_tasksH stC9mut).2 = Except.ok [("T1", ticketB)]
    ∧ (assign_tasksH stC9mut).2 ≠ (assign_tasksH stC9same).2 := by
  decide

/-- C9 amended: only `refresh_tasks` deep-copies its input.  The engine keeps
no reference to any ticket object after ingestion, so mutating a caller's
ticket has no effect on any subsequent operation; the distance rows, by
contrast, are stored by reference by `update_floor`/`set_distances` (and
`add_technician`), so a caller mutating a row after the call changes the next
rebuild and its assignment. -/
theorem C9_amended_only_refresh_tasks_copies :
    (∀ (h : PyHeap) (r : Nat) (t : JiraTicket) (st : TaskAssignerHState)
        (techs : List String),
        refresh_techniciansH (h.setTicket r t) st techs
          = refresh_techniciansH h st techs)
    ∧ (∀ (h : PyHeap) (r : Nat) (t : JiraTicket) (st : TaskAssignerHState)
        (techs : List String) (drefs : List Nat),
        update_floorH (h.setTicket r t) st techs drefs
          = update_floorH h st techs drefs)
    ∧ (∀ (h : PyHeap) (r : Nat) (t : JiraTicket) (st : TaskAssignerHState)
        (drefs : List Nat),
        set_distancesH (h.setTicket r t) st drefs = set_distancesH h st drefs)
    ∧ (∀ (h : PyHeap) (st : TaskAssignerHState) (drefs : List Nat),
        (set_distancesH h st drefs).1.distanceRefs = drefs)
    ∧ (assign_tasksH stC9mut).2 = Except.ok [("T1", ticketB)] := by
  refine ⟨fun _ _ _ _ _ => rfl, fun _ _ _ _ _ _ => rfl, fun _ _ _ _ _ => rfl,
    ?_, by decide⟩
  intro h st drefs
  simp only [set_distancesH, withRebuildH, rebuild_graph_unsafeH]
  split <;> rename_i heq
  · split at heq
    · split at heq
      · cases heq; rfl
      · cases heq
    · cases heq; rfl
  · split at heq
    · split at heq
      · cases heq
      · cases heq; rfl
    · cases heq

theorem set_last_replicate (n : Nat) (b : Int) :
    (List.replicate (n + 1) (0 : Int)).set n b = List.replicate n 0 ++ [b] := by
  induction n with
  | zero => rfl
  | succ k ih =>
    show (0 :: List.replicate (k + 1) (0 : Int)).set (k + 1) b = _
    rw [List.set_cons_succ, ih]
    simp [List.replicate_succ]

/-- The supplies list built by `_create_graph` in closed form:
`[T, 0, …, 0, -min(N, T)]` with `T + N` zeros in between. -/
theorem create_graph_supplies (technitions : List String) (tasks : List JiraTicket)
    (distances : List (List Int)) (task_priorities : List Int) (priority_weight : Int) :
    (create_graph technitions tasks distances task_priorities priority_weight).1.supplies
      = (technitions.length : Int) ::
          (List.replicate (technitions.length + tasks.length) 0
            ++ [-(min tasks.length technitions.length : Int)]) := by
  show (((List.replicate (technitions.length + tasks.length + 1 + 1) (0 : Int)).set 0
      (technitions.length : Int)).set (technitions.length + tasks.length + 1)
      (-(min tasks.length technitions.length : Int))) = _
  rw [show List.replicate (technitions.length + tasks.length + 1 + 1) (0 : Int)
      = 0 :: List.replicate (technitions.length + tasks.length + 1) 0 from rfl,
    List.set_cons_zero, List.set_cons_succ, set_last_replicate]

theorem getD_replicate_append (n : Nat) (b : Int) :
    (List.replicate n (0 : Int) ++ [b]).getD n 0 = b := by
  induction n with
  | zero => rfl
  | succ k ih => rw [List.replicate_succ, List.cons_append, List.getD_cons_succ, ih]

theorem getD_replicate_append_lt (n : Nat) (b : Int) :
    ∀ k : Nat, k < n → (List.replicate n (0 : Int) ++ [b]).getD k 0 = 0 := by
  induction n with
  | zero => omega
  | succ m ih =>
    intro k hk
    cases k with
    | zero => rfl
    | succ k2 => simpa [List.replicate_succ] using ih k2 (by omega)

/-- C2 counterexample: the network built from 2 technicians and 1 task has
supplies `[2, 0, 0, 0, -1]`, which sum to 1, not 0 — total supply does not
equal total demand whenever there are more technicians than tasks. -/
theorem C2_counterexample_unbalanced :
    exNetC2.supplies = [2, 0, 0, 0, -1] ∧ exNetC2.supplies.sum ≠ 0 := by
  decide

/-- C2 amended: for every built network, source supply = T, sink supply =
−min(N, T) and every other node 0, as claimed; but the supplies sum to
`T − min(N, T)`, which is zero exactly when T ≤ N, not always. -/
theorem C2_amended_supply_balance (technitions : List String) (tasks : List JiraTicket)
    (distances : List (List Int)) (task_priorities : List Int) (priority_weight : Int) :
    ((create_graph technitions tasks distances task_priorities priority_weight).1.supplies.length
        = technitions.length + tasks.length + 2)
    ∧ ((create_graph technitions tasks distances task_priorities priority_weight).1.supplies.getD 0 0
        = (technitions.length : Int))
    ∧ ((create_graph technitions tasks distances task_priorities priority_weight).1.supplies.getD
          (technitions.length + tasks.length + 1) 0
        = -(min tasks.length technitions.length : Int))
    ∧ (∀ v : Nat, 0 < v → v < technitions.length + tasks.length + 1 →
        (create_graph technitions tasks distances task_priorities priority_weight).1.supplies.getD
          v 0 = 0)
    ∧ ((create_graph technitions tasks distances task_priorities priority_weight).1.supplies.sum = 0
        ↔ technitions.length ≤ tasks.length) := by
  rw [create_graph_supplies]
  refine ⟨by simp, by simp, ?_, ?_, ?_⟩
  · rw [List.getD_cons_succ, getD_replicate_append]
  · intro v hv0 hv
    cases v with
    | zero => omega
    | succ v2 => simpa using getD_replicate_append_lt _ _ v2 (by omega)
  · simp only [List.sum_cons, List.sum_append, List.sum_replicate, smul_zero,
      List.sum_cons, List.sum_nil, zero_add, add_zero]
    omega

/-- C2 witness: the amended statement at 1 technician, 1 task, inner node 1. -/
theorem C2_amended_witness :
    0 < 1
    ∧ (create_graph ["T1"] [ticketA] [[5]] [1] 2).1.supplies.getD 1 0 = 0 :=
  ⟨by decide,
    (C2_amended_supply_balance ["T1"] [ticketA] [[5]] [1] 2).2.2.2.1 1 (by decide)
      (by decide)⟩

theorem length_flatMap_const {α β : Type} (l : List α) (F : α → List β) (N : Nat)
    (h : ∀ a, (F a).length = N) : (l.flatMap F).length = l.length * N := by
  induction l with
  | nil => simp
  | cons a rest ih =>
    rw [List.flatMap_cons, List.length_append, h, ih, List.length_cons, Nat.succ_mul]
    omega

theorem flatMap_blocks_getElem {β : Type} (N : Nat) (g : Nat → Nat → β) :
    ∀ (l : List Nat) (i j : Nat), i < l.length → j < N →
      (l.flatMap (fun a => (List.range N).map (g a)))[i * N + j]?
        = some (g (l.getD i 0) j) := by
  intro l
  induction l with
  | nil => intro i j hi _; simp at hi
  | cons a rest ih =>
    intro i j hi hj
    rw [List.flatMap_cons]
    cases i with
    | zero =>
      rw [Nat.zero_mul, Nat.zero_add, List.getElem?_append,
        if_pos (by simpa using hj)]
      simp [List.getElem?_map, List.getElem?_range hj]
    | succ i2 =>
      rw [List.getElem?_append_right (by simp [Nat.succ_mul]; omega)]
      have harith : (i2 + 1) * N + j - ((List.range N).map (g a)).length
          = i2 * N + j := by
        simp only [List.length_map, List.length_range, Nat.succ_mul]
        omega
      rw [harith, ih i2 j (by simpa using Nat.lt_of_succ_lt_succ hi) hj,
        List.getD_cons_succ]

theorem create_graph_arcs_length (technitions : List String) (tasks : List JiraTicket)
    (distances : List (List Int)) (task_priorities : List Int) (priority_weight : Int) :
    (create_graph technitions tasks distances task_priorities priority_weight).1.arcs.length
      = technitions.length + technitions.length * tasks.length + tasks.length := by
  show ((List.range technitions.length).map _
      ++ (List.range technitions.length).flatMap _
      ++ (List.range tasks.length).map _).length = _
  rw [List.length_append, List.length_append,
    length_flatMap_const _ _ tasks.length (fun a => by simp)]
  simp



theorem create_graph_arc_source (technitions : List String) (tasks : List JiraTicket)
    (distances : List (List Int)) (task_priorities : List Int) (priority_weight : Int)
    (k : Nat) (hk : k < technitions.length) :
    (create_graph technitions tasks distances task_priorities priority_weight).1.arcs.getD
        k default = Arc.mk 0 (1 + k) 1 0 := by
  show (((List.range technitions.length).map (fun i => Arc.mk 0 (1 + i) 1 0)
      ++ _) ++ _).getD k default = _
  rw [List.getD_eq_getElem?_getD, List.getElem?_append,
    if_pos (by rw [List.length_append, List.length_map, List.length_range]; omega),
    List.getElem?_append, if_pos (by rw [List.length_map, List.length_range]; exact hk),
    List.getElem?_map, List.getElem?_range hk]
  rfl



theorem create_graph_arc_tech_task (technitions : List String) (tasks : List JiraTicket)
    (distances : List (List Int)) (task_priorities : List Int) (priority_weight : Int)
    (i j : Nat) (hi : i < technitions.length) (hj : j < tasks.length) :
    (create_graph technitions tasks distances task_priorities priority_weight).1.arcs.getD
        (technitions.length + i * tasks.length + j) default
      = Arc.mk (1 + i) (technitions.length + 1 + j) 1
          ((((costsOf priority_weight task_priorities distances).map
              (fun r => r.map (fun c => c +
                (create_graph technitions tasks distances task_priorities
                  priority_weight).2))).getD i []).getD j 0) := by
  show (((List.range technitions.length).map (fun k => Arc.mk 0 (1 + k) 1 0)
      ++ (List.range technitions.length).flatMap
        (fun i2 => (List.range tasks.length).map
          (fun j2 => Arc.mk (1 + i2) (technitions.length + 1 + j2) 1
            ((((costsOf priority_weight task_priorities distances).map
              (fun r => r.map (fun c => c +
                (create_graph technitions tasks distances task_priorities
                  priority_weight).2))).getD i2 []).getD j2 0)))
      ++ _)).getD (technitions.length + i * tasks.length + j) default = _
  have hmul : i * tasks.length + j < technitions.length * tasks.length := by
    have h2 : i * tasks.length + j < (i + 1) * tasks.length := by
      rw [Nat.succ_mul]; omega
    exact Nat.lt_of_lt_of_le h2 (Nat.mul_le_mul_right _ (by omega))
  rw [List.getD_eq_getElem?_getD, List.getElem?_append, if_pos ?hin,
    List.getElem?_append_right (by rw [List.length_map, List.length_range]; omega)]
  case hin =>
    rw [List.length_append, List.length_map,
      length_flatMap_const _ _ tasks.length (fun a => by simp)]
    simp only [List.length_range]
    omega
  have hidx : technitions.length + i * tasks.length + j
      - ((List.range technitions.length).map (fun k => Arc.mk 0 (1 + k) 1 0)).length
      = i * tasks.length + j := by
    rw [List.length_map, List.length_range]; omega
  rw [hidx, flatMap_blocks_getElem tasks.length _ (List.range technitions.length) i j
      (by simpa using hi) hj]
  rw [List.getD_eq_getElem?_getD (List.range technitions.length) i 0,
    List.getElem?_range hi]
  rfl



theorem create_graph_arc_sink (technitions : List String) (tasks : List JiraTicket)
    (distances : List (List Int)) (task_priorities : List Int) (priority_weight : Int)
    (j : Nat) (hj : j < tasks.length) :
    (create_graph technitions tasks distances task_priorities priority_weight).1.arcs.getD
        (technitions.length + technitions.length * tasks.length + j) default
      = Arc.mk (technitions.length + 1 + j)
          (technitions.length + tasks.length + 1) 1 0 := by
  show (((List.range technitions.length).map (fun k => Arc.mk 0 (1 + k) 1 0)
      ++ (List.range technitions.length).flatMap
        (fun i2 => (List.range tasks.length).map
          (fun j2 => Arc.mk (1 + i2) (technitions.length + 1 + j2) 1
            ((((costsOf priority_weight task_priorities distances).map
              (fun r => r.map (fun c => c +
                (create_graph technitions tasks distances task_priorities
                  priority_weight).2))).getD i2 []).getD j2 0)))
      ++ (List.range tasks.length).map
          (fun j2 => Arc.mk (technitions.length + 1 + j2)
            (technitions.length + tasks.length + 1) 1 0))).getD
      (technitions.length + technitions.length * tasks.length + j) default = _
  rw [List.getD_eq_getElem?_getD, List.getElem?_append_right ?hge]
  case hge =>
    rw [List.length_append, List.length_map,
      length_flatMap_const _ _ tasks.length (fun a => by simp)]
    simp only [List.length_range]
    omega
  have hidx : technitions.length + technitions.length * tasks.length + j
      - (((List.range technitions.length).map (fun k => Arc.mk 0 (1 + k) 1 0)
        ++ (List.range technitions.length).flatMap
          (fun i2 => (List.range tasks.length).map
            (fun j2 => Arc.mk (1 + i2) (technitions.length + 1 + j2) 1
              ((((costsOf priority_weight task_priorities distances).map
                (fun r => r.map (fun c => c +
                  (create_graph technitions tasks distances task_priorities
                    priority_weight).2))).getD i2 []).getD j2 0)))).length)
      = j := by
    rw [List.length_append, List.length_map,
      length_flatMap_const _ _ tasks.length (fun a => by simp)]
    simp only [List.length_range]
    omega
  rw [hidx, List.getElem?_map, List.getElem?_range hj]
  rfl

/-- C6: for every distance matrix, priority vector and priority weight (with
consistent shapes), the technician→task arc costs equal
`distance[i][j] - priority_weight * task_priority[j]` shifted by the scalar
offset `max(0, -min(cost))`; every shifted arc cost is non-negative, and the
offset is 0 whenever all unshifted costs already are. -/
theorem C6_cost_model_offset (technitions : List String) (tasks : List JiraTicket)
    (distances : List (List Int)) (task_priorities : List Int) (priority_weight : Int)
    (i j : Nat) (hi : i < technitions.length) (hj : j < tasks.length)
    (hrows : distances.length = technitions.length)
    (hcols : ∀ r ∈ distances, r.length = tasks.length)
    (hpr : task_priorities.length = tasks.length) :
    ((create_graph technitions tasks distances task_priorities priority_weight).2
        = max 0 (-(npMin (costsOf priority_weight task_priorities distances).flatten)))
    ∧ (0 ≤ npMin (costsOf priority_weight task_priorities distances).flatten →
        (create_graph technitions tasks distances task_priorities priority_weight).2 = 0)
    ∧ (((create_graph technitions tasks distances task_priorities priority_weight).1.arcs.getD
          (technitions.length + i * tasks.length + j) default).unitCost
        = ((distances.getD i []).getD j 0
            - priority_weight * (task_priorities.getD j 0))
          + (create_graph technitions tasks distances task_priorities priority_weight).2)
    ∧ (0 ≤ ((create_graph technitions tasks distances task_priorities
          priority_weight).1.arcs.getD
          (technitions.length + i * tasks.length + j) default).unitCost) := by
  have hilen : i < distances.length := by omega
  have hd : distances.getD i [] = distances[i] := by
    rw [List.getD_eq_getElem?_getD, List.getElem?_eq_getElem hilen]
    rfl
  have hrmem : distances[i] ∈ distances := List.getElem_mem hilen
  have hrlen : distances[i].length = tasks.length := hcols _ hrmem
  have hrowlen : (rowCosts priority_weight task_priorities distances[i]).length
      = tasks.length := by
    simp [rowCosts, List.length_zipWith, hrlen, hpr]
  have hjrow : j < (rowCosts priority_weight task_priorities distances[i]).length := by
    omega
  have hoff : (create_graph technitions tasks distances task_priorities priority_weight).2
      = max 0 (-(npMin (costsOf priority_weight task_priorities distances).flatten)) := by
    show (if 0 ≤ npMin (costsOf priority_weight task_priorities distances).flatten
        then (0 : Int)
        else -(npMin (costsOf priority_weight task_priorities distances).flatten)) = _
    rcases le_or_lt 0 (npMin (costsOf priority_weight task_priorities distances).flatten)
      with h | h
    · rw [if_pos h, max_eq_left (by omega)]
    · rw [if_neg (by omega), max_eq_right (by omega)]
  have h1 : ((costsOf priority_weight task_priorities distances).map
        (fun r => r.map (fun c => c +
          (create_graph technitions tasks distances task_priorities
            priority_weight).2))).getD i []
      = (rowCosts priority_weight task_priorities distances[i]).map
          (fun c => c + (create_graph technitions tasks distances task_priorities
            priority_weight).2) := by
    rw [List.getD_eq_getElem?_getD, List.getElem?_map]
    rw [show (costsOf priority_weight task_priorities distances)[i]?
        = some (rowCosts priority_weight task_priorities distances[i]) by
      rw [costsOf, List.getElem?_map, List.getElem?_eq_getElem hilen]
      rfl]
    rfl
  have h2 : ((rowCosts priority_weight task_priorities distances[i]).map
        (fun c => c + (create_graph technitions tasks distances task_priorities
          priority_weight).2)).getD j 0
      = (rowCosts priority_weight task_priorities distances[i])[j]
        + (create_graph technitions tasks distances task_priorities priority_weight).2 := by
    rw [List.getD_eq_getElem?_getD, List.getElem?_map, List.getElem?_eq_getElem hjrow]
    rfl
  have h3 : (rowCosts priority_weight task_priorities distances[i])[j]
      = distances[i].getD j 0 - priority_weight * task_priorities.getD j 0 := by
    have hjd : j < distances[i].length := by omega
    have hjp : j < task_priorities.length := by omega
    rw [show distances[i].getD j 0 = distances[i][j] by
        rw [List.getD_eq_getElem?_getD, List.getElem?_eq_getElem hjd]; rfl,
      show task_priorities.getD j 0 = task_priorities[j] by
        rw [List.getD_eq_getElem?_getD, List.getElem?_eq_getElem hjp]; rfl]
    simp only [rowCosts]
    rw [List.getElem_zipWith]
  have harc := create_graph_arc_tech_task technitions tasks distances task_priorities
    priority_weight i j hi hj
  have hmem : (rowCosts priority_weight task_priorities distances[i])[j]
      ∈ (costsOf priority_weight task_priorities distances).flatten := by
    rw [List.mem_flatten]
    exact ⟨rowCosts priority_weight task_priorities distances[i],
      List.mem_map.mpr ⟨distances[i], hrmem, rfl⟩, List.getElem_mem hjrow⟩
  have hmin := npMin_le hmem
  refine ⟨hoff, ?_, ?_, ?_⟩
  · intro h
    rw [hoff, max_eq_left (by omega)]
  · rw [harc]
    show (((costsOf priority_weight task_priorities distances).map
        (fun r => r.map (fun c => c +
          (create_graph technitions tasks distances task_priorities
            priority_weight).2))).getD i []).getD j 0 = _
    rw [h1, h2, h3, hd]
  · rw [harc]
    show 0 ≤ (((costsOf priority_weight task_priorities distances).map
        (fun r => r.map (fun c => c +
          (create_graph technitions tasks distances task_priorities
            priority_weight).2))).getD i []).getD j 0
    rw [h1, h2, hoff]
    rcases le_or_lt 0 (npMin (costsOf priority_weight task_priorities distances).flatten)
      with h | h
    · rw [max_eq_left (by omega)]
      omega
    · rw [max_eq_right (by omega)]
      omega



/-- C7: nodes are numbered source 0, technicians `1..T`, tasks `T+1..T+N`,
sink `T+N+1`; the arcs come out as the `T` source→technician arcs, then the
`T*N` technician→task arcs in technician-major order, then the `N` task→sink
arcs; decoding arc index `T + i*N + j` by `tail - 1` and `head - (T+1)`
recovers exactly the pair `(i, j)`. -/
theorem C7_arc_order_decoding (technitions : List String) (tasks : List JiraTicket)
    (distances : List (List Int)) (task_priorities : List Int) (priority_weight : Int)
    (i j k : Nat) (hi : i < technitions.length) (hj : j < tasks.length)
    (hk : k < technitions.length) :
    ((create_graph technitions tasks distances task_priorities priority_weight).1.arcs.length
        = technitions.length + technitions.length * tasks.length + tasks.length)
    ∧ ((create_graph technitions tasks distances task_priorities priority_weight).1.arcs.getD
          k default = Arc.mk 0 (1 + k) 1 0)
    ∧ ((create_graph technitions tasks distances task_priorities priority_weight).1.arcs.getD
          (technitions.length + i * tasks.length + j) default
        = Arc.mk (1 + i) (technitions.length + 1 + j) 1
            ((((costsOf priority_weight task_priorities distances).map
                (fun r => r.map (fun c => c +
                  (create_graph technitions tasks distances task_priorities
                    priority_weight).2))).getD i []).getD j 0))
    ∧ (((create_graph technitions tasks distances task_priorities priority_weight).1.arcs.getD
          (technitions.length + i * tasks.length + j) default).tail - 1 = i)
    ∧ (((create_graph technitions tasks distances task_priorities priority_weight).1.arcs.getD
          (technitions.length + i * tasks.length + j) default).head
        - (technitions.length + 1) = j)
    ∧ ((create_graph technitions tasks distances task_priorities priority_weight).1.arcs.getD
          (technitions.length + technitions.length * tasks.length + j) default
        = Arc.mk (technitions.length + 1 + j)
            (technitions.length + tasks.length + 1) 1 0) := by
  have ht := create_graph_arc_tech_task technitions tasks distances task_priorities
    priority_weight i j hi hj
  refine ⟨create_graph_arcs_length technitions tasks distances task_priorities
      priority_weight,
    create_graph_arc_source technitions tasks distances task_priorities
      priority_weight k hk,
    ht, ?_, ?_,
    create_graph_arc_sink technitions tasks distances task_priorities
      priority_weight j hj⟩
  · rw [ht]
    show 1 + i - 1 = i
    omega
  · rw [ht]
    show technitions.length + 1 + j - (technitions.length + 1) = j
    omega

/-- C7 witness: decoding applied to arc `(i, j) = (1, 0)` of a concrete 2×1
build. -/
theorem C7_witness :
    ((create_graph ["T1", "T2"] [ticketA] [[4], [6]] [1] 2).1.arcs.getD
        (2 + 1 * 1 + 0) default).tail - 1 = 1 :=
  (C7_arc_order_decoding ["T1", "T2"] [ticketA] [[4], [6]] [1] 2 1 0 0 (by decide)
    (by decide) (by decide)).2.2.2.1

/-- C6 witness: non-negativity of the shifted cost at entry `(0, 1)` of a
concrete 1×2 build whose unshifted costs include a negative entry. -/
theorem C6_witness :
    0 ≤ ((create_graph ["T1"] [ticketA, ticketB] [[5, 1]] [1, 1] 2).1.arcs.getD
        (1 + 0 * 2 + 1) default).unitCost :=
  (C6_cost_model_offset ["T1"] [ticketA, ticketB] [[5, 1]] [1, 1] 2 0 1 (by decide)
    (by decide) (by decide) (by decide) (by decide)).2.2.2

theorem forall₂_append_single {R : (String × JiraTicket) → (String × JiraTicket) → Prop}
    {a b : String × JiraTicket} (hab : R a b) :
    ∀ {d1 d2 : List (String × JiraTicket)}, List.Forall₂ R d1 d2 →
      List.Forall₂ R (d1 ++ [a]) (d2 ++ [b]) := by
  intro d1 d2 hd
  induction hd with
  | nil => exact List.Forall₂.cons hab List.Forall₂.nil
  | cons h1 _ ih => exact List.Forall₂.cons h1 ih

theorem forall₂_keys_map_eq :
    ∀ {l1 l2 : List (String × JiraTicket)},
    List.Forall₂ (fun p q => p.1 = q.1 ∧ p.2.key = q.2.key) l1 l2 →
    l1.map (fun p => (p.1, p.2.key)) = l2.map (fun p => (p.1, p.2.key)) := by
  intro l1 l2 h
  induction h with
  | nil => rfl
  | cons h1 _ ih => simp [List.map_cons, ih, h1.1, h1.2]

theorem forall₂_any_key (k : String) :
    ∀ {d1 d2 : List (String × JiraTicket)},
    List.Forall₂ (fun p q => p.1 = q.1 ∧ p.2.key = q.2.key) d1 d2 →
    (d1.any fun p => p.1 == k) = (d2.any fun p => p.1 == k) := by
  intro d1 d2 hd
  induction hd with
  | nil => rfl
  | @cons a b l1 l2 h1 _ ih => simp [List.any_cons, ih, h1.1]

theorem forall₂_keys_overwrite (k : String) {v1 v2 : JiraTicket} (hv : v1.key = v2.key) :
    ∀ {d1 d2 : List (String × JiraTicket)},
    List.Forall₂ (fun p q => p.1 = q.1 ∧ p.2.key = q.2.key) d1 d2 →
    List.Forall₂ (fun p q => p.1 = q.1 ∧ p.2.key = q.2.key)
      (d1.map (fun p => if p.1 == k then (k, v1) else p))
      (d2.map (fun p => if p.1 == k then (k, v2) else p)) := by
  intro d1 d2 hd
  induction hd with
  | nil => exact List.Forall₂.nil
  | @cons a b l1 l2 h1 _ ih =>
    simp only [List.map_cons]
    refine List.Forall₂.cons ?_ ih
    rcases h1 with ⟨hfst, hkey⟩
    by_cases hpk : b.1 = k
    · simp [hpk, hfst, hv]
    · simp [hpk, hfst, hkey]

theorem dictInsert_keys (k : String) {v1 v2 : JiraTicket} (hv : v1.key = v2.key)
    {d1 d2 : List (String × JiraTicket)}
    (hd : List.Forall₂ (fun p q => p.1 = q.1 ∧ p.2.key = q.2.key) d1 d2) :
    List.Forall₂ (fun p q => p.1 = q.1 ∧ p.2.key = q.2.key)
      (dictInsert d1 k v1) (dictInsert d2 k v2) := by
  unfold dictInsert
  rw [forall₂_any_key k hd]
  by_cases hc : (d2.any fun p => p.1 == k) = true
  · rw [if_pos hc, if_pos hc]
    exact forall₂_keys_overwrite k hv hd
  · rw [if_neg hc, if_neg hc]
    exact forall₂_append_single ⟨rfl, hv⟩ hd

theorem key_getD_map_rePriority (tasks : List JiraTicket) (f : JiraTicket → Option String)
    (n : Nat) :
    ((tasks.map (rePriority f)).getD n default).key = (tasks.getD n default).key := by
  rw [List.getD_eq_getElem?_getD, List.getD_eq_getElem?_getD, List.getElem?_map]
  cases tasks[n]? <;> rfl

theorem create_graph_tasks_congr (technitions : List String)
    {tasks1 tasks2 : List JiraTicket} (h : tasks1.length = tasks2.length)
    (distances : List (List Int)) (task_priorities : List Int) (priority_weight : Int) :
    create_graph technitions tasks1 distances task_priorities priority_weight
      = create_graph technitions tasks2 distances task_priorities priority_weight := by
  unfold create_graph
  rw [h]

theorem foldl_dictInsert_keys (flow : List Nat) (arcs : List Arc) (techs : List String)
    (tasks1 tasks2 : List JiraTicket) (nt : Nat)
    (hkeys : ∀ n : Nat, (tasks1.getD n default).key = (tasks2.getD n default).key) :
    ∀ (idxs : List Nat) (d1 d2 : List (String × JiraTicket)),
    List.Forall₂ (fun p q => p.1 = q.1 ∧ p.2.key = q.2.key) d1 d2 →
    List.Forall₂ (fun p q => p.1 = q.1 ∧ p.2.key = q.2.key)
      (idxs.foldl (fun assignments arc_index =>
        if 0 < flow.getD arc_index 0 then
          dictInsert assignments (techs.getD ((arcs.getD arc_index default).tail - 1) "")
            (tasks1.getD ((arcs.getD arc_index default).head - (nt + 1)) default)
        else assignments) d1)
      (idxs.foldl (fun assignments arc_index =>
        if 0 < flow.getD arc_index 0 then
          dictInsert assignments (techs.getD ((arcs.getD arc_index default).tail - 1) "")
            (tasks2.getD ((arcs.getD arc_index default).head - (nt + 1)) default)
        else assignments) d2) := by
  intro idxs
  induction idxs with
  | nil => intro d1 d2 hd; exact hd
  | cons a rest ih =>
    intro d1 d2 hd
    simp only [List.foldl_cons]
    by_cases hf : 0 < flow.getD a 0
    · rw [if_pos hf, if_pos hf]
      exact ih _ _ (dictInsert_keys _ (hkeys _) hd)
    · rw [if_neg hf, if_neg hf]
      exact ih _ _ hd

theorem solve_graph_keys_congr (g1 g2 : Graph)
    (hsm : g2.smcf = g1.smcf) (htech : g2.technicians = g1.technicians)
    (hlen : g2.tasks.length = g1.tasks.length)
    (hkeys : ∀ n : Nat, (g2.tasks.getD n default).key = (g1.tasks.getD n default).key) :
    (g2.solve_graph).map (fun l => l.map (fun p => (p.1, p.2.key)))
      = (g1.solve_graph).map (fun l => l.map (fun p => (p.1, p.2.key))) := by
  unfold Graph.solve_graph
  rw [hsm, htech, hlen]
  cases mcfSolve g1.smcf with
  | none => rfl
  | some flow =>
    dsimp only [Except.map]
    exact congrArg Except.ok (forall₂_keys_map_eq
      (foldl_dictInsert_keys flow g1.smcf.arcs g1.technicians g2.tasks g1.tasks
        g1.technicians.length hkeys _ [] [] List.Forall₂.nil))



theorem assign_tasks_keys_congr (st1 st2 : TaskAssignerState)
    (hg : st2.graph = st1.graph) (ha : st2.assignments = st1.assignments) :
    ((assign_tasks st2).2).map (fun l => l.map (fun p => (p.1, p.2.key)))
      = ((assign_tasks st1).2).map (fun l => l.map (fun p => (p.1, p.2.key))) := by
  unfold assign_tasks
  rw [hg, ha]
  cases st1.graph with
  | none => rfl
  | some g =>
    dsimp only
    cases g.solve_graph <;> rfl

theorem assign_tasks_some_snd (st : TaskAssignerState) (g : Graph)
    (h : st.graph = some g) : (assign_tasks st).2 = g.solve_graph := by
  unfold assign_tasks
  rw [h]
  dsimp only
  cases g.solve_graph <;> rfl

/-- C10: `config.TASK_PRIORITY_WEIGHT = 2`; every graph rebuild passes that
module constant (never the constructor's `priority_weight` field) and the
all-1 `_CONSTANT_PRIORITIES` vector (never the tickets' priority fields), so
neither the constructor argument nor the tasks' priority values ever affect
the computed assignment (the technician → task-key pairing and the rebuild
status are invariant under both). -/
theorem C10_priority_weight_inert :
    TASK_PRIORITY_WEIGHT = 2
    ∧ (∀ (st : TaskAssignerState) (w : Int) (f : JiraTicket → Option String),
        rebuildAssignObs { st with
          priority_weight := w,
          tasks := st.tasks.map (rePriority f) } = rebuildAssignObs st)
    ∧ (∀ (st st2 : TaskAssignerState) (g : Graph),
        rebuild_graph_unsafe st = Except.ok st2 → st2.graph = some g →
        st.graph = some g
        ∨ (g.priority_weight = TASK_PRIORITY_WEIGHT
            ∧ g.task_priorities = CONSTANT_PRIORITIES st.tasks.length)) := by
  refine ⟨rfl, ?_, ?_⟩
  · intro st w f
    unfold rebuildAssignObs withRebuild rebuild_graph_unsafe
    have hemp : (st.tasks.map (rePriority f)).isEmpty = st.tasks.isEmpty := by
      cases st.tasks <;> rfl
    dsimp only
    rw [hemp, List.length_map]
    by_cases hg : (!st.technicians.isEmpty && !st.tasks.isEmpty
        && !st.distances.isEmpty) = true
    · rw [if_pos hg, if_pos hg]
      by_cases hs : npShapeOk st.distances st.technicians.length st.tasks.length = true
      · rw [if_pos hs, if_pos hs]
        dsimp only
        refine congrArg (Prod.mk (Except.ok ())) ?_
        rw [assign_tasks_some_snd _ (Graph.make st.technicians
            (st.tasks.map (rePriority f)) st.distances
            (CONSTANT_PRIORITIES st.tasks.length) TASK_PRIORITY_WEIGHT) rfl,
          assign_tasks_some_snd _ (Graph.make st.technicians st.tasks st.distances
            (CONSTANT_PRIORITIES st.tasks.length) TASK_PRIORITY_WEIGHT) rfl]
        refine solve_graph_keys_congr
          (Graph.make st.technicians st.tasks st.distances
            (CONSTANT_PRIORITIES st.tasks.length) TASK_PRIORITY_WEIGHT)
          (Graph.make st.technicians (st.tasks.map (rePriority f)) st.distances
            (CONSTANT_PRIORITIES st.tasks.length) TASK_PRIORITY_WEIGHT)
          ?_ rfl (List.length_map _ _) (fun n => key_getD_map_rePriority st.tasks f n)
        show (create_graph st.technicians (st.tasks.map (rePriority f)) st.distances
            (CONSTANT_PRIORITIES st.tasks.length) TASK_PRIORITY_WEIGHT).1
          = (create_graph st.technicians st.tasks st.distances
            (CONSTANT_PRIORITIES st.tasks.length) TASK_PRIORITY_WEIGHT).1
        rw [create_graph_tasks_congr st.technicians (List.length_map st.tasks _)
          st.distances (CONSTANT_PRIORITIES st.tasks.length) TASK_PRIORITY_WEIGHT]
      · rw [if_neg hs, if_neg hs]
        dsimp only
        refine congrArg (Prod.mk (Except.error
          "ValueError: inhomogeneous distance matrix")) ?_
        exact assign_tasks_keys_congr _ _ rfl rfl
    · rw [if_neg hg, if_neg hg]
      dsimp only
      refine congrArg (Prod.mk (Except.ok ())) ?_
      exact assign_tasks_keys_congr _ _ rfl rfl
  · intro st st2 g hreb hg
    unfold rebuild_graph_unsafe at hreb
    by_cases hcond : (!st.technicians.isEmpty && !st.tasks.isEmpty
        && !st.distances.isEmpty) = true
    · rw [if_pos hcond] at hreb
      by_cases hs : npShapeOk st.distances st.technicians.length st.tasks.length = true
      · rw [if_pos hs] at hreb
        cases hreb
        right
        rw [show ({ st with
            graph := some (Graph.make st.technicians st.tasks st.distances
              (CONSTANT_PRIORITIES st.tasks.length) TASK_PRIORITY_WEIGHT) }
              : TaskAssignerState).graph
          = some (Graph.make st.technicians st.tasks st.distances
              (CONSTANT_PRIORITIES st.tasks.length) TASK_PRIORITY_WEIGHT) from rfl] at hg
        cases hg
        exact ⟨rfl, rfl⟩
      · rw [if_neg hs] at hreb
        cases hreb
    · rw [if_neg hcond] at hreb
      cases hreb
      left
      exact hg

/-- C10 witness: the rebuilt-graph characterization applied to the concrete
engine state with 2 technicians and 1 task. -/
theorem C10_witness :
    rebuild_graph_unsafe stC4 = Except.ok stC4
    ∧ (stC4.graph = some (Graph.make ["T1", "T2"] [ticketA] [[4], [6]]
        (CONSTANT_PRIORITIES 1) TASK_PRIORITY_WEIGHT)
      ∨ ((Graph.make ["T1", "T2"] [ticketA] [[4], [6]]
            (CONSTANT_PRIORITIES 1) TASK_PRIORITY_WEIGHT).priority_weight
            = TASK_PRIORITY_WEIGHT
          ∧ (Graph.make ["T1", "T2"] [ticketA] [[4], [6]]
            (CONSTANT_PRIORITIES 1) TASK_PRIORITY_WEIGHT).task_priorities
            = CONSTANT_PRIORITIES stC4.tasks.length)) :=
  ⟨by decide, C10_priority_weight_inert.2.2 stC4 stC4 _ (by decide) (by decide)⟩

end TaskAssignment
